import Mathlib

/-!
Shallow embedding of the LSP-pyright Sublime Text plugin source file
(plugin.py). Filesystem state, the external command runner and the path
operations are abstract parameters; each definition below mirrors one
Python function of the source and keeps its name where Lean allows it.
-/

namespace LspPyright

/-- Result of sublime.platform(): one of windows, linux, osx. -/
inductive OSFamily
  | windows
  | linux
  | osx
  deriving DecidableEq

/-- Path separator inserted by os.path.join on each platform family. -/
def sep : OSFamily → String
  | OSFamily.windows => "\\"
  | _ => "/"

/-- Models os.path.join for appending one relative component, the only way
the source uses it. -/
def joinPath (pl : OSFamily) (a b : String) : String := a ++ sep pl ++ b

/-- Abstract filesystem state: one Boolean oracle per os.path predicate the
source uses (os.path.isfile, os.path.exists, os.path.lexists, os.path.isdir)
plus os.listdir. -/
structure FileSystem where
  isfile : String → Bool
  pexists : String → Bool
  lexists : String → Bool
  isdir : String → Bool
  listdir : String → List String

/-- Abstract path context: os.path.dirname as a pure string operation, and
the module constant USER_HOME = os.path.normpath(os.path.expanduser(home)). -/
structure PathCtx where
  dirname : String → String
  userHome : String

/-- A workspace folder handed over by the LSP framework; the source reads
only its path attribute. -/
structure WorkspaceFolder where
  name : String
  path : String

/-- The slice of the DottedDict settings object the resolver reads:
pythonPath is the value of settings.get applied to the key
python.pythonPath, none when the key is unset. -/
structure Settings where
  pythonPath : Option String

/-- Outcome of subprocess.check_output: captured stdout on success,
FileNotFoundError when the binary is missing, CalledProcessError on a
nonzero exit status. -/
inductive CmdResult
  | success (out : String)
  | notFound
  | nonzeroExit
  deriving DecidableEq

/-- Abstract external-command layer: run argvcmd cwd models
subprocess.check_output(command, cwd=workspace_folder, ...). -/
structure Exec where
  run : List String → String → CmdResult

/-- The module constant ROOT_FILES (a Python set literal, modelled as the
list of its elements in source order). -/
def ROOT_FILES : List String :=
  [".git", "poetry.lock", "setup.py", "dev-requirements.txt",
   "requirements-dev.txt", "requirements.txt", "test-requirements.txt"]

/-- is_project_root(root): true when root equals USER_HOME or some name of
ROOT_FILES exists as a direct child of root. The lru_cache decorator of the
source is a pure memoisation and has no observable effect in this model. -/
def is_project_root (pl : OSFamily) (fs : FileSystem) (pc : PathCtx)
    (root : String) : Bool :=
  root == pc.userHome || ROOT_FILES.any (fun n => fs.pexists (joinPath pl root n))

/-- Class attribute python_exe: python unless the platform is windows. -/
def python_exe (pl : OSFamily) : String :=
  if pl = OSFamily.windows then "python.exe" else "python"

/-- _venv_path(root, venv_name): the candidate interpreter
root/venv_name/bin/python_exe if os.path.exists holds of it, else none.
In the source venv_name defaults to venv; the single caller uses that
default, passed explicitly here. -/
def _venv_path (pl : OSFamily) (fs : FileSystem) (root venv_name : String) :
    Option String :=
  let venv := joinPath pl (joinPath pl (joinPath pl root venv_name) "bin") (python_exe pl)
  if fs.pexists venv then some venv else none

/-- Body of the while-loop of _find_venv. The fuel argument is only a
termination device: the loop recurses only when the dirname is strictly
shorter than the current path, so fuel equal to the length of the start
path plus one is never exhausted (findVenvGo_fuel below). -/
def findVenvGo (pl : OSFamily) (fs : FileSystem) (pc : PathCtx) :
    Nat → String → Option String
  | 0, _ => none
  | fuel + 1, root =>
    match _venv_path pl fs root "venv" with
    | some venv => some venv
    | none =>
      if is_project_root pl fs pc root then none
      else
        let d := pc.dirname root
        if d.length ≥ root.length ∨ d = pc.userHome then none
        else findVenvGo pl fs pc fuel d

/-- _find_venv(root): none when os.path.lexists fails on root, otherwise
the upward-walking loop starting at root. -/
def _find_venv (pl : OSFamily) (fs : FileSystem) (pc : PathCtx)
    (root : String) : Option String :=
  if fs.lexists root then findVenvGo pl fs pc (root.length + 1) root else none

/-- Python truthiness of the optional string read from the settings: a
value is kept only when it is present and non-empty. -/
def truthy : Option String → Option String
  | some p => if p = "" then none else some p
  | none => none

/-- resolve_virtualenv(settings, folders): explicit override first, then
_find_venv on each folder path in order. Marked TODO: use this in the
source; on_pre_start does not call it. -/
def resolve_virtualenv (pl : OSFamily) (fs : FileSystem) (pc : PathCtx)
    (settings : Settings) (folders : List WorkspaceFolder) : Option String :=
  match truthy settings.pythonPath with
  | some p => some p
  | none => folders.findSome? (fun f => _find_venv pl fs pc f.path)

/-- The candidate interpreter location below an environment root, as
computed inside binary_from_python_path: path/Scripts/python.exe on
windows, path/bin/python elsewhere. -/
def pyBinary (pl : OSFamily) (path : String) : String :=
  if pl = OSFamily.windows then joinPath pl (joinPath pl path "Scripts") "python.exe"
  else joinPath pl (joinPath pl path "bin") "python"

/-- Nested helper binary_from_python_path(path): the candidate interpreter
below path, kept only if os.path.isfile holds of it. -/
def binary_from_python_path (pl : OSFamily) (fs : FileSystem) (path : String) :
    Option String :=
  let binary_path := pyBinary pl path
  if fs.isfile binary_path then some binary_path else none

/-- Tag for the third component of a venv_config_files entry: the source
stores either None or the function binary_from_python_path there. -/
inductive PostKind
  | binaryFromPythonPath
  deriving DecidableEq

/-- One row of venv_config_files: config file name, command argv, optional
postprocessing. -/
abbrev VenvRule := String × List String × Option PostKind

/-- The static table venv_config_files of the source, in order. -/
def venv_config_files : List VenvRule :=
  [("Pipfile", ["pipenv", "--py"], none),
   ("poetry.lock", ["poetry", "env", "info", "-p"], some PostKind.binaryFromPythonPath),
   (".python-version", ["pyenv", "which", "python"], none)]

/-- Evaluates the line
return post_processing(python_path) if post_processing else python_path:
without a postprocessor the stripped stdout is returned as is; with one,
its possibly-absent result is returned. -/
def applyPost (pl : OSFamily) (fs : FileSystem) :
    Option PostKind → String → Option String
  | none, p => some p
  | some PostKind.binaryFromPythonPath, p => binary_from_python_path pl fs p

/-- Python str.strip(): removes leading and trailing whitespace. -/
def pyStrip (s : String) : String :=
  String.mk (((s.toList.dropWhile Char.isWhitespace).reverse.dropWhile Char.isWhitespace).reverse)

/-- The single-quote character, used by the shlex.quote model. -/
def squote : Char := Char.ofNat 39

/-- Characters shlex.quote leaves unquoted (the class of word characters
plus at-percent-plus-equals-colon-comma-dot-slash-dash). -/
def shlexSafe (c : Char) : Bool :=
  c.isAlphanum || c = Char.ofNat 95 || c = Char.ofNat 64 || c = Char.ofNat 37 ||
  c = Char.ofNat 43 || c = Char.ofNat 61 || c = Char.ofNat 58 ||
  c = Char.ofNat 44 || c = Char.ofNat 46 || c = Char.ofNat 47 || c = Char.ofNat 45

/-- shlex.quote(s): empty strings become a pair of single quotes, safe
strings pass through, anything else is single-quoted with embedded single
quotes escaped. -/
def shlex_quote (s : String) : String :=
  if s = "" then squote.toString ++ squote.toString
  else if s.toList.all shlexSafe then s
  else
    squote.toString ++
      (s.replace squote.toString (squote.toString ++ "\"" ++ squote.toString ++ "\"" ++ squote.toString)) ++
      squote.toString

/-- The warning printed when the config file exists but the command binary
is missing (FileNotFoundError): command index zero is the binary name; the
commands of venv_config_files are all non-empty. -/
def warnNotFound (name cfg : String) (cmd : List String) : String :=
  name ++ ": WARN: " ++ cfg ++ " detected but " ++ cmd.headD "" ++ " not found"

/-- The warning printed when the command exits with a nonzero status. -/
def warnNonzero (name cfg : String) (cmd : List String) : String :=
  name ++ ": WARN: " ++ cfg ++ " detected but " ++
    String.intercalate " " (cmd.map shlex_quote) ++
    " exited with non-zero exit status"

/-- The for-loop of resolve_python_path_from_venv over venv_config_files.
First component: some r when the loop executed a return statement with
value r (r itself may be none, from a postprocessor that yielded None);
none when the loop fell through all rules. Second component: the warnings
printed, in order. -/
def toolStep (pl : OSFamily) (fs : FileSystem) (ex : Exec) (name wf : String) :
    List VenvRule → Option (Option String) × List String
  | [] => (none, [])
  | (cfg, cmd, post) :: rest =>
    if fs.isfile (joinPath pl wf cfg) then
      match ex.run cmd wf with
      | CmdResult.success out => (some (applyPost pl fs post (pyStrip out)), [])
      | CmdResult.notFound =>
        let r := toolStep pl fs ex name wf rest
        (r.1, warnNotFound name cfg cmd :: r.2)
      | CmdResult.nonzeroExit =>
        let r := toolStep pl fs ex name wf rest
        (r.1, warnNonzero name cfg cmd :: r.2)
    else toolStep pl fs ex name wf rest

/-- Nested helper binary_from_venv(root, child): requires the marker file
root/child/pyvenv.cfg, then delegates to binary_from_python_path on
root/child; the Python function returns None implicitly otherwise. -/
def binary_from_venv (pl : OSFamily) (fs : FileSystem) (root child : String) :
    Option String :=
  if fs.isfile (joinPath pl (joinPath pl root child) "pyvenv.cfg")
  then binary_from_python_path pl fs (joinPath pl root child) else none

/-- The two subfolder loops at the end of resolve_python_path_from_venv:
venv then .venv first, then every other entry of os.listdir with those two
names skipped. -/
def subfolderStep (pl : OSFamily) (fs : FileSystem) (wf : String) :
    Option String :=
  match List.findSome? (binary_from_venv pl fs wf) ["venv", ".venv"] with
  | some binary => some binary
  | none =>
    (fs.listdir wf).findSome?
      (fun file => if file = "venv" ∨ file = ".venv" then none
                   else binary_from_venv pl fs wf file)

/-- resolve_python_path_from_venv(settings, workspace_folders): the result
paired with the list of warnings printed. -/
def resolve_python_path_from_venv (pl : OSFamily) (fs : FileSystem) (ex : Exec)
    (name : String) (settings : Settings) (workspace_folders : List WorkspaceFolder) :
    Option String × List String :=
  match truthy settings.pythonPath with
  | some p => (some p, [])
  | none =>
    match workspace_folders with
    | [] => (none, [])
    | wfolder :: _ =>
      let workspace_folder := wfolder.path
      let r := toolStep pl fs ex name workspace_folder venv_config_files
      match r.1 with
      | some result => (result, r.2)
      | none => (subfolderStep pl fs workspace_folder, r.2)

/-- The python path computed by on_pre_start: the resolver result, with the
Python or-default python applied to a falsy (absent or empty) result. -/
def on_pre_start_python_path (pl : OSFamily) (fs : FileSystem) (ex : Exec)
    (name : String) (settings : Settings) (workspace_folders : List WorkspaceFolder) :
    String :=
  match truthy (resolve_python_path_from_venv pl fs ex name settings workspace_folders).1 with
  | some p => p
  | none => "python"

/-- Case-insensitive literal consumption: consumes the given lowercase
pattern characters from the input, returning the consumed original
characters (case preserved, for the backreference) and the remainder. -/
def ciConsume : List Char → List Char → Option (List Char × List Char)
  | [], cs => some ([], cs)
  | _ :: _, [] => none
  | p :: ps, c :: cs =>
    if c.toLower = p then
      match ciConsume ps cs with
      | some (k, r) => some (c :: k, r)
      | none => none
    else none

/-- The literal part of the pattern of find_package_dependency_dirs. -/
def pyPat : List Char := ['p', 'y', 't', 'h', 'o', 'n', '3']

/-- One attempted match of the case-insensitive regular expression
(python3 dot-optional)[38] at the head of the input: on success, the text
of capture group one and the remainder after the whole match. The optional
dot is greedy; when the greedy branch fails the backtracking alternative
(matching the digit class against the dot itself) always fails too. -/
def matchPy (cs : List Char) : Option (List Char × List Char) :=
  match ciConsume pyPat cs with
  | none => none
  | some (g, rest) =>
    match rest with
    | '.' :: d :: rest2 =>
      if d = '3' ∨ d = '8' then some (g ++ ['.'], rest2) else none
    | d :: rest2 => if d = '3' ∨ d = '8' then some (g, rest2) else none
    | [] => none

/-- Left-to-right scan of re.sub, replacing each non-overlapping match by
group one followed by the target digit. The fuel argument is a termination
device only: every step consumes at least one character, so fuel equal to
the input length is never exhausted. -/
def reSubGo (target : Char) : Nat → List Char → List Char
  | 0, cs => cs
  | _ + 1, [] => []
  | fuel + 1, c :: cs =>
    match matchPy (c :: cs) with
    | some (g, rest) => g ++ target :: reSubGo target fuel rest
    | none => c :: reSubGo target fuel cs

/-- re.sub of the pattern above over one search-path entry: the replacement
digit is 8 exactly when the target version is (3, 8), else 3. -/
def reSub (py_ver : Nat × Nat) (s : String) : String :=
  let target := if py_ver = (3, 8) then '8' else '3'
  String.mk (reSubGo target s.toList.length s.toList)

/-- find_package_dependency_dirs(py_ver), as a function of the process
search-path list sys.path, the constant sublime.packages_path() and the
plugin package_storage(). Except.error models the ValueError raised by
list.remove when packages_path is not an element of the rewritten list;
otherwise the rewritten list with packages_path moved to the back, the
bundled stub directory prepended, and only extant directories kept. -/
def find_package_dependency_dirs (pl : OSFamily) (fs : FileSystem)
    (sysPath : List String) (packagesPath storagePath : String)
    (py_ver : Nat × Nat) : Except Unit (List String) :=
  let dep_dirs := sysPath.map (reSub py_ver)
  if packagesPath ∈ dep_dirs then
    let moved := dep_dirs.erase packagesPath ++ [packagesPath]
    let stub :=
      joinPath pl (joinPath pl (joinPath pl storagePath "resources") "typings") "sublime_text"
    Except.ok ((stub :: moved).filter fs.isdir)
  else Except.error ()

/-- The sequence of directories the while-loop of _find_venv visits when no
venv and no project root ever stops it early: each step moves to the
dirname, stopping when the dirname is not strictly shorter or equals
USER_HOME. Fueled like findVenvGo. -/
def ancestorChainGo (pc : PathCtx) : Nat → String → List String
  | 0, _ => []
  | fuel + 1, root =>
    root ::
      (let d := pc.dirname root
       if d.length ≥ root.length ∨ d = pc.userHome then []
       else ancestorChainGo pc fuel d)

/-- The guard-bounded ancestor chain of a start directory. -/
def ancestorChain (pc : PathCtx) (root : String) : List String :=
  ancestorChainGo pc (root.length + 1) root

/-- Fueled form of venvCandidates below, following the fuel of
ancestorChainGo. -/
def venvCandidatesGo (pl : OSFamily) (fs : FileSystem) (pc : PathCtx)
    (fuel : Nat) (root : String) : List String :=
  let chain := ancestorChainGo pc fuel root
  chain.takeWhile (fun d => ! is_project_root pl fs pc d) ++
    (chain.dropWhile (fun d => ! is_project_root pl fs pc d)).take 1

/-- The directories the walk of _find_venv actually examines for a venv:
the ancestor chain cut at the first project root, that first project root
included (the loop checks the venv of a directory before testing whether
it is a project root). -/
def venvCandidates (pl : OSFamily) (fs : FileSystem) (pc : PathCtx)
    (root : String) : List String :=
  venvCandidatesGo pl fs pc (root.length + 1) root

/-! Concrete fixtures used by the counterexamples and witnesses below. -/

/-- A filesystem with no files, no directories and empty listings. -/
def fsEmpty : FileSystem where
  isfile := fun _ => false
  pexists := fun _ => false
  lexists := fun _ => false
  isdir := fun _ => false
  listdir := fun _ => []

/-- An external-command layer on which every binary is missing. -/
def exNone : Exec where
  run := fun _ _ => CmdResult.notFound

/-- A degenerate path context whose dirname is the identity. -/
def pcTriv : PathCtx where
  dirname := fun s => s
  userHome := "/home/u"

/-- Workspace with a poetry.lock and a .python-version marker and nothing
else on disk. -/
def fsPoetry : FileSystem where
  isfile := fun p => p == "/w/poetry.lock" || p == "/w/.python-version"
  pexists := fun _ => false
  lexists := fun _ => false
  isdir := fun _ => false
  listdir := fun _ => []

/-- Commands for the poetry scenario: poetry prints an environment root
that holds no interpreter, pyenv prints a usable interpreter path. -/
def exPoetry : Exec where
  run := fun cmd _ =>
    if cmd = ["poetry", "env", "info", "-p"] then CmdResult.success "/venvroot\n"
    else if cmd = ["pyenv", "which", "python"] then CmdResult.success "/py/python"
    else CmdResult.notFound

/-- A workspace folder /h/a/b with a conventional venv in the parent
directory /h/a and nothing inside the folder itself. -/
def fsAncestorVenv : FileSystem where
  isfile := fun _ => false
  pexists := fun p => p == "/h/a/venv/bin/python"
  lexists := fun p => p == "/h/a/b"
  isdir := fun _ => false
  listdir := fun _ => []

/-- Path context for the /h/a/b walk with user home /h. -/
def pcSlashH : PathCtx where
  dirname := fun s => if s == "/h/a/b" then "/h/a" else if s == "/h/a" then "/h" else ""
  userHome := "/h"

/-- A windows filesystem where the start directory holds a venv laid out
with a Scripts subdirectory only (no bin subdirectory). -/
def fsScripts : FileSystem where
  isfile := fun p => p == "C:\\proj\\venv\\Scripts\\python.exe"
  pexists := fun p => p == "C:\\proj\\venv\\Scripts\\python.exe"
  lexists := fun p => p == "C:\\proj"
  isdir := fun _ => false
  listdir := fun _ => []

/-- Path context for the windows fixture. -/
def pcWin : PathCtx where
  dirname := fun s => if s == "C:\\proj" then "C:" else s
  userHome := "C:\\Users\\me"

/-- Workspace folder with a marker file whose command fails. -/
def fsMarkerOnly : FileSystem where
  isfile := fun p => p == "/w/Pipfile"
  pexists := fun _ => false
  lexists := fun _ => false
  isdir := fun _ => false
  listdir := fun _ => []

/-- Workspace folder /w holding a valid .venv child: venv marker file plus
posix interpreter binary. -/
def fsDotVenv : FileSystem where
  isfile := fun p => p == "/w/.venv/pyvenv.cfg" || p == "/w/.venv/bin/python"
  pexists := fun _ => false
  lexists := fun _ => false
  isdir := fun _ => false
  listdir := fun p => if p == "/w" then [".venv"] else []

/-- C1: with a non-empty pythonPath override in the settings, the resolver
returns that value verbatim with no warnings, for every filesystem state,
every external-command layer and every workspace-folder list. -/
theorem c1_explicit_override_wins (pl : OSFamily) (fs : FileSystem) (ex : Exec)
    (name p : String) (folders : List WorkspaceFolder) (h : p ≠ "") :
    resolve_python_path_from_venv pl fs ex name ⟨some p⟩ folders = (some p, []) := by
  simp [resolve_python_path_from_venv, truthy, h]

/-- Witness for C1 at a concrete override and workspace. -/
theorem c1_explicit_override_wins_witness :
    resolve_python_path_from_venv OSFamily.linux fsEmpty exNone "LSP-pyright"
      ⟨some "/usr/bin/python3"⟩ [⟨"w", "/w"⟩] = (some "/usr/bin/python3", []) :=
  c1_explicit_override_wins OSFamily.linux fsEmpty exNone "LSP-pyright"
    "/usr/bin/python3" [⟨"w", "/w"⟩] (by decide)

/-- C2 is false of the code: with poetry.lock present, the poetry command
succeeding, and postprocessing yielding none, the resolver returns none
from the whole resolution (it does not fall through), even though the next
rule (.python-version, whose marker also exists) would have produced an
interpreter path. -/
theorem c2_counterexample :
    resolve_python_path_from_venv OSFamily.linux fsPoetry exPoetry "LSP-pyright"
      ⟨none⟩ [⟨"w", "/w"⟩] = (none, [])
    ∧ fsPoetry.isfile "/w/poetry.lock" = true
    ∧ exPoetry.run ["poetry", "env", "info", "-p"] "/w" = CmdResult.success "/venvroot\n"
    ∧ applyPost OSFamily.linux fsPoetry (some PostKind.binaryFromPythonPath)
        (pyStrip "/venvroot\n") = none
    ∧ fsPoetry.isfile "/w/.python-version" = true
    ∧ toolStep OSFamily.linux fsPoetry exPoetry "LSP-pyright" "/w"
        [(".python-version", ["pyenv", "which", "python"], none)] =
        (some (some "/py/python"), []) :=
  ⟨by decide, by decide, by decide, by decide, by decide, by decide⟩

/-- C2 amended: when the first matching rule is the poetry rule, its
command succeeds, and the postprocessing yields absent, the resolver
returns absent immediately, skipping the remaining rules and the
conventional subfolder search. -/
theorem c2_post_absent_aborts (pl : OSFamily) (fs : FileSystem) (ex : Exec)
    (name : String) (settings : Settings) (wfolder : WorkspaceFolder)
    (rest : List WorkspaceFolder) (out : String)
    (h0 : truthy settings.pythonPath = none)
    (h1 : fs.isfile (joinPath pl wfolder.path "Pipfile") = false)
    (h2 : fs.isfile (joinPath pl wfolder.path "poetry.lock") = true)
    (h3 : ex.run ["poetry", "env", "info", "-p"] wfolder.path = CmdResult.success out)
    (h4 : binary_from_python_path pl fs (pyStrip out) = none) :
    resolve_python_path_from_venv pl fs ex name settings (wfolder :: rest) = (none, []) := by
  simp [resolve_python_path_from_venv, h0, venv_config_files, toolStep, h1, h2, h3,
    applyPost, h4]

/-- Witness for the amended C2 at the concrete poetry scenario. -/
theorem c2_post_absent_aborts_witness :
    resolve_python_path_from_venv OSFamily.linux fsPoetry exPoetry "LSP-pyright"
      ⟨none⟩ [⟨"w", "/w"⟩] = (none, []) :=
  c2_post_absent_aborts OSFamily.linux fsPoetry exPoetry "LSP-pyright"
    ⟨none⟩ ⟨"w", "/w"⟩ [] "/venvroot\n"
    (by decide) (by decide) (by decide) (by decide) (by decide)

/-- C6: when a marker file exists and the external command fails, either
because the binary is missing or because it exits with a nonzero status,
a warning is prepended to the log and the cascade result is exactly the
result of the remaining rules; no failure escapes the loop. -/
theorem c6_command_failure_recovered (pl : OSFamily) (fs : FileSystem) (ex : Exec)
    (name wf cfg : String) (cmd : List String) (post : Option PostKind)
    (rest : List VenvRule)
    (hfile : fs.isfile (joinPath pl wf cfg) = true) :
    (ex.run cmd wf = CmdResult.notFound →
      toolStep pl fs ex name wf ((cfg, cmd, post) :: rest) =
        ((toolStep pl fs ex name wf rest).1,
          warnNotFound name cfg cmd :: (toolStep pl fs ex name wf rest).2))
    ∧ (ex.run cmd wf = CmdResult.nonzeroExit →
      toolStep pl fs ex name wf ((cfg, cmd, post) :: rest) =
        ((toolStep pl fs ex name wf rest).1,
          warnNonzero name cfg cmd :: (toolStep pl fs ex name wf rest).2)) := by
  constructor <;> intro hrun <;> simp [toolStep, hfile, hrun]

/-- Witness for C6: a Pipfile whose pipenv binary is missing. -/
theorem c6_command_failure_recovered_witness :
    toolStep OSFamily.linux fsMarkerOnly exNone "LSP-pyright" "/w"
      [("Pipfile", ["pipenv", "--py"], none)] =
      ((toolStep OSFamily.linux fsMarkerOnly exNone "LSP-pyright" "/w" []).1,
        warnNotFound "LSP-pyright" "Pipfile" ["pipenv", "--py"] ::
          (toolStep OSFamily.linux fsMarkerOnly exNone "LSP-pyright" "/w" []).2) :=
  (c6_command_failure_recovered OSFamily.linux fsMarkerOnly exNone "LSP-pyright"
    "/w" "Pipfile" ["pipenv", "--py"] none [] (by decide)).1 (by decide)

/-- C7: is_project_root is true exactly when the directory is the user
home or some ROOT_FILES marker exists as a direct child; in particular a
directory that is not the home and has no marker children (as for a
nonexistent path, whose existence checks all fail) yields false. -/
theorem c7_project_root_detection (pl : OSFamily) (fs : FileSystem) (pc : PathCtx)
    (root : String) :
    (is_project_root pl fs pc root = true ↔
      root = pc.userHome ∨ ∃ n ∈ ROOT_FILES, fs.pexists (joinPath pl root n) = true)
    ∧ ((root ≠ pc.userHome ∧ ∀ n ∈ ROOT_FILES, fs.pexists (joinPath pl root n) = false) →
      is_project_root pl fs pc root = false) := by
  constructor
  · simp [is_project_root, List.any_eq_true]
  · rintro ⟨h1, h2⟩
    simp only [is_project_root, Bool.or_eq_false_iff, beq_eq_false_iff_ne, ne_eq]
    refine ⟨h1, ?_⟩
    simp only [List.any_eq_false]
    intro n hn
    simp [h2 n hn]

/-- Witness for C7: a markerless directory is no project root, the user
home always is. -/
theorem c7_project_root_detection_witness :
    is_project_root OSFamily.linux fsEmpty pcTriv "/r" = false
    ∧ is_project_root OSFamily.linux fsEmpty pcTriv "/home/u" = true :=
  ⟨(c7_project_root_detection OSFamily.linux fsEmpty pcTriv "/r").2
      ⟨by decide, by decide⟩,
    ((c7_project_root_detection OSFamily.linux fsEmpty pcTriv "/home/u").1).mpr
      (Or.inl rfl)⟩

/-- C9 is false of the code: with a search path that does not contain the
packages path, list.remove raises ValueError (modelled as Except.error),
so the function does not return a result. -/
theorem c9_counterexample :
    find_package_dependency_dirs OSFamily.linux fsEmpty [] "/pk" "/st" (3, 3) =
      Except.error () := rfl

/-- C9 amended: whenever the version-rewritten search path list contains
the packages path, find_package_dependency_dirs returns normally and every
element of the returned list is an existing directory. -/
theorem c9_no_raise_when_packages_present (pl : OSFamily) (fs : FileSystem)
    (sysPath : List String) (packagesPath storagePath : String) (py_ver : Nat × Nat)
    (h : packagesPath ∈ sysPath.map (reSub py_ver)) :
    ∃ l, find_package_dependency_dirs pl fs sysPath packagesPath storagePath py_ver =
        Except.ok l
      ∧ ∀ d ∈ l, fs.isdir d = true := by
  unfold find_package_dependency_dirs
  rw [if_pos h]
  exact ⟨_, rfl, fun d hd => (List.mem_filter.mp hd).2⟩

/-- Witness for the amended C9 at a one-element search path. -/
theorem c9_no_raise_when_packages_present_witness :
    ∃ l, find_package_dependency_dirs OSFamily.linux fsEmpty ["/pk"] "/pk" "/st" (3, 3) =
        Except.ok l
      ∧ ∀ d ∈ l, fsEmpty.isdir d = true :=
  c9_no_raise_when_packages_present OSFamily.linux fsEmpty ["/pk"] "/pk" "/st" (3, 3)
    (by decide)

/-- C10: the resolver result depends on the workspace-folder list only
through the path of its first element: two non-empty lists whose head
paths agree give identical results over the same filesystem and command
state. -/
theorem c10_only_first_folder (pl : OSFamily) (fs : FileSystem) (ex : Exec)
    (name : String) (settings : Settings) (f1 f2 : WorkspaceFolder)
    (r1 r2 : List WorkspaceFolder) (h : f1.path = f2.path) :
    resolve_python_path_from_venv pl fs ex name settings (f1 :: r1) =
      resolve_python_path_from_venv pl fs ex name settings (f2 :: r2) := by
  unfold resolve_python_path_from_venv
  cases truthy settings.pythonPath with
  | some p => rfl
  | none => simp only [h]

/-- Witness for C10: same head path, different names and tails. -/
theorem c10_only_first_folder_witness :
    resolve_python_path_from_venv OSFamily.linux fsEmpty exNone "LSP-pyright"
      ⟨none⟩ [⟨"a", "/w"⟩] =
      resolve_python_path_from_venv OSFamily.linux fsEmpty exNone "LSP-pyright"
        ⟨none⟩ [⟨"b", "/w"⟩, ⟨"c", "/z"⟩] :=
  c10_only_first_folder OSFamily.linux fsEmpty exNone "LSP-pyright"
    ⟨none⟩ ⟨"a", "/w"⟩ ⟨"b", "/w"⟩ [] [⟨"c", "/z"⟩] rfl

/-- Helper: binary_from_venv only reads the filesystem below the
workspace folder, so it is invariant under filesystems that agree there. -/
theorem binary_from_venv_congr (pl : OSFamily) (fs1 fs2 : FileSystem) (wf : String)
    (hif : ∀ s, fs1.isfile (joinPath pl wf s) = fs2.isfile (joinPath pl wf s))
    (c : String) :
    binary_from_venv pl fs1 wf c = binary_from_venv pl fs2 wf c := by
  simp only [joinPath, String.append_assoc] at hif
  unfold binary_from_venv binary_from_python_path pyBinary
  by_cases hw : pl = OSFamily.windows
  · subst hw
    simp [joinPath, String.append_assoc, hif]
  · simp [hw, joinPath, String.append_assoc, hif]

/-- Helper: with no override and the tool cascade falling through, the
resolver result is the conventional subfolder search on the first
workspace folder. -/
theorem resolve_fallthrough_eq (pl : OSFamily) (fs : FileSystem) (ex : Exec)
    (name : String) (settings : Settings) (wfolder : WorkspaceFolder)
    (rest : List WorkspaceFolder)
    (h0 : truthy settings.pythonPath = none)
    (htool : (toolStep pl fs ex name wfolder.path venv_config_files).1 = none) :
    (resolve_python_path_from_venv pl fs ex name settings (wfolder :: rest)).1 =
      subfolderStep pl fs wfolder.path := by
  simp only [resolve_python_path_from_venv, h0, htool]

/-- Helper: the second subfolder loop, which skips venv and .venv, equals
a findSome? over the listing filtered to the other names. -/
theorem findSome_skip (pl : OSFamily) (fs : FileSystem) (wf : String) (l : List String) :
    l.findSome? (fun file => if file = "venv" ∨ file = ".venv" then none
                             else binary_from_venv pl fs wf file) =
      (l.filter (fun file => decide (file ≠ "venv" ∧ file ≠ ".venv"))).findSome?
        (binary_from_venv pl fs wf) := by
  induction l with
  | nil => rfl
  | cons a l ih =>
    by_cases ha : a = "venv" ∨ a = ".venv"
    · have hpa : ¬ ((fun file => decide (file ≠ "venv" ∧ file ≠ ".venv")) a = true) := by
        rcases ha with h | h <;> simp [h]
      rw [List.findSome?_cons,
        @List.filter_cons_of_neg String (fun file => decide (file ≠ "venv" ∧ file ≠ ".venv")) a l hpa]
      simp only [if_pos ha]
      exact ih
    · have hpa : ((fun file => decide (file ≠ "venv" ∧ file ≠ ".venv")) a = true) := by
        push_neg at ha
        simp [ha.1, ha.2]
      rw [List.findSome?_cons,
        @List.filter_cons_of_pos String (fun file => decide (file ≠ "venv" ∧ file ≠ ".venv")) a l hpa,
        List.findSome?_cons]
      simp only [if_neg ha]
      cases hbv : binary_from_venv pl fs wf a with
      | some b => simp only [hbv]
      | none =>
        simp only [hbv]
        exact ih

/-- C5: the conventional subfolder step checks venv, then .venv, then the
other direct children in listing order; a child is accepted exactly when
it holds both pyvenv.cfg and the platform interpreter binary, whose path
is returned; and this step is what the resolver computes once the
override is unset and the tool cascade fell through. -/
theorem c5_conventional_subfolder (pl : OSFamily) (fs : FileSystem) (wf : String) :
    subfolderStep pl fs wf =
      ("venv" :: ".venv" ::
        (fs.listdir wf).filter (fun f => decide (f ≠ "venv" ∧ f ≠ ".venv"))).findSome?
        (binary_from_venv pl fs wf)
    ∧ (∀ c b, binary_from_venv pl fs wf c = some b ↔
        (fs.isfile (joinPath pl (joinPath pl wf c) "pyvenv.cfg") = true
          ∧ fs.isfile (pyBinary pl (joinPath pl wf c)) = true
          ∧ b = pyBinary pl (joinPath pl wf c)))
    ∧ (∀ (ex : Exec) (name : String) (settings : Settings)
        (wfolder : WorkspaceFolder) (rest : List WorkspaceFolder),
        truthy settings.pythonPath = none →
        (toolStep pl fs ex name wfolder.path venv_config_files).1 = none →
        (resolve_python_path_from_venv pl fs ex name settings (wfolder :: rest)).1 =
          subfolderStep pl fs wfolder.path) := by
  refine ⟨?_, ?_, ?_⟩
  · unfold subfolderStep
    cases h1 : binary_from_venv pl fs wf "venv" with
    | some b => simp [List.findSome?_cons, h1]
    | none =>
      cases h2 : binary_from_venv pl fs wf ".venv" with
      | some b => simp [List.findSome?_cons, h1, h2]
      | none => simp [List.findSome?_cons, h1, h2, findSome_skip]
  · intro c b
    unfold binary_from_venv binary_from_python_path
    by_cases h1 : fs.isfile (joinPath pl (joinPath pl wf c) "pyvenv.cfg") = true
    · by_cases h2 : fs.isfile (pyBinary pl (joinPath pl wf c)) = true
      · simp [h1, h2, eq_comm]
      · simp [h1, h2]
    · simp [h1]
  · intro ex name settings wfolder rest h0 htool
    exact resolve_fallthrough_eq pl fs ex name settings wfolder rest h0 htool

/-- Witness for C5: a workspace whose .venv child is a valid venv. -/
theorem c5_conventional_subfolder_witness :
    (resolve_python_path_from_venv OSFamily.linux fsDotVenv exNone "LSP-pyright"
      ⟨none⟩ [⟨"w", "/w"⟩]).1 = subfolderStep OSFamily.linux fsDotVenv "/w"
    ∧ subfolderStep OSFamily.linux fsDotVenv "/w" = some "/w/.venv/bin/python" :=
  ⟨(c5_conventional_subfolder OSFamily.linux fsDotVenv "/w").2.2 exNone "LSP-pyright"
      ⟨none⟩ ⟨"w", "/w"⟩ [] rfl (by decide),
    by decide⟩

/-- C3 is false of the code: the entry point on_pre_start resolves via
resolve_python_path_from_venv, which does not search ancestors: over a
filesystem whose only venv sits in an ancestor of the workspace folder it
resolves to nothing and on_pre_start falls back to the bare name python,
although the upward walk _find_venv (unused by on_pre_start) does locate
that venv. -/
theorem c3_counterexample :
    on_pre_start_python_path OSFamily.linux fsAncestorVenv exNone "LSP-pyright"
      ⟨none⟩ [⟨"b", "/h/a/b"⟩] = "python"
    ∧ resolve_python_path_from_venv OSFamily.linux fsAncestorVenv exNone "LSP-pyright"
        ⟨none⟩ [⟨"b", "/h/a/b"⟩] = (none, [])
    ∧ _find_venv OSFamily.linux fsAncestorVenv pcSlashH "/h/a/b" =
        some "/h/a/venv/bin/python" :=
  ⟨by decide, by decide, by decide⟩

/-- C3 amended: when no override is set, the entry-point resolver performs
no upward walk at all: once the tool rules fall through it runs only the
subfolder search on the first workspace folder, and that search depends
only on the filesystem at and below that folder. -/
theorem c3_no_upward_walk (pl : OSFamily) :
    (∀ (fs : FileSystem) (ex : Exec) (name : String) (settings : Settings)
      (wfolder : WorkspaceFolder) (rest : List WorkspaceFolder),
      truthy settings.pythonPath = none →
      (toolStep pl fs ex name wfolder.path venv_config_files).1 = none →
      (resolve_python_path_from_venv pl fs ex name settings (wfolder :: rest)).1 =
        subfolderStep pl fs wfolder.path)
    ∧ (∀ (fs1 fs2 : FileSystem) (wf : String),
      (∀ s, fs1.isfile (joinPath pl wf s) = fs2.isfile (joinPath pl wf s)) →
      fs1.listdir wf = fs2.listdir wf →
      subfolderStep pl fs1 wf = subfolderStep pl fs2 wf) := by
  constructor
  · intro fs ex name settings wfolder rest h0 htool
    exact resolve_fallthrough_eq pl fs ex name settings wfolder rest h0 htool
  · intro fs1 fs2 wf hif hld
    have hbv : binary_from_venv pl fs1 wf = binary_from_venv pl fs2 wf :=
      funext (binary_from_venv_congr pl fs1 fs2 wf hif)
    unfold subfolderStep
    rw [hbv, hld]

/-- Witness for the amended C3: the resolver ignores the ancestor venv of
fsAncestorVenv since it lies outside the workspace folder. -/
theorem c3_no_upward_walk_witness :
    (resolve_python_path_from_venv OSFamily.linux fsEmpty exNone "LSP-pyright"
      ⟨none⟩ [⟨"w", "/w"⟩]).1 = subfolderStep OSFamily.linux fsEmpty "/w"
    ∧ subfolderStep OSFamily.linux fsAncestorVenv "/h/a/b" =
        subfolderStep OSFamily.linux fsEmpty "/h/a/b" :=
  ⟨(c3_no_upward_walk OSFamily.linux).1 fsEmpty exNone "LSP-pyright" ⟨none⟩
      ⟨"w", "/w"⟩ [] rfl (by decide),
    (c3_no_upward_walk OSFamily.linux).2 fsAncestorVenv fsEmpty "/h/a/b"
      (fun _ => rfl) rfl⟩

/-- Helper: the visited ancestor chain is no longer than the fuel. -/
theorem ancestorChainGo_length (pc : PathCtx) :
    ∀ fuel root, (ancestorChainGo pc fuel root).length ≤ fuel := by
  intro fuel
  induction fuel with
  | zero =>
    intro root
    simp [ancestorChainGo]
  | succ fuel ih =>
    intro root
    unfold ancestorChainGo
    by_cases hg : (pc.dirname root).length ≥ root.length ∨ pc.dirname root = pc.userHome
    · simp [hg]
    · simp only [hg, if_false, List.length_cons]
      exact Nat.succ_le_succ (ih (pc.dirname root))

/-- Helper: any fuel beyond the start-path length gives the same walk
result, so the loop needs at most length-plus-one iterations. -/
theorem findVenvGo_fuel_irrel (pl : OSFamily) (fs : FileSystem) (pc : PathCtx) :
    ∀ f1 f2 root, root.length < f1 → root.length < f2 →
      findVenvGo pl fs pc f1 root = findVenvGo pl fs pc f2 root := by
  intro f1
  induction f1 with
  | zero =>
    intro f2 root h1 h2
    exact absurd h1 (Nat.not_lt_zero _)
  | succ f1 ih =>
    intro f2 root h1 h2
    cases f2 with
    | zero => exact absurd h2 (Nat.not_lt_zero _)
    | succ f2 =>
      simp only [findVenvGo]
      cases hv : _venv_path pl fs root "venv" with
      | some v => rfl
      | none =>
        cases hpr : is_project_root pl fs pc root with
        | true => simp [hpr]
        | false =>
          by_cases hg : (pc.dirname root).length ≥ root.length ∨ pc.dirname root = pc.userHome
          · simp [hpr, hg]
          · have hd : (pc.dirname root).length < root.length := by
              rcases not_or.mp hg with ⟨hlen, _⟩
              omega
            simp only [hpr, hg, if_false, Bool.false_eq_true]
            exact ih f2 (pc.dirname root) (by omega) (by omega)

/-- Helper: one-step unfolding of the candidate list. -/
theorem venvCandidatesGo_succ (pl : OSFamily) (fs : FileSystem) (pc : PathCtx)
    (fuel : Nat) (root : String) :
    venvCandidatesGo pl fs pc (fuel + 1) root =
      if is_project_root pl fs pc root then [root]
      else root ::
        (if (pc.dirname root).length ≥ root.length ∨ pc.dirname root = pc.userHome then []
         else venvCandidatesGo pl fs pc fuel (pc.dirname root)) := by
  unfold venvCandidatesGo
  simp only [ancestorChainGo]
  cases hpr : is_project_root pl fs pc root with
  | true => simp [hpr, List.takeWhile_cons, List.dropWhile_cons]
  | false =>
    by_cases hg : (pc.dirname root).length ≥ root.length ∨ pc.dirname root = pc.userHome
    · simp [hpr, hg, List.takeWhile_cons, List.dropWhile_cons]
    · simp [hpr, hg, List.takeWhile_cons, List.dropWhile_cons]

/-- Helper: the walk equals the first venv found along the candidate
ancestors. -/
theorem findVenvGo_eq_candidates (pl : OSFamily) (fs : FileSystem) (pc : PathCtx) :
    ∀ fuel root, root.length < fuel →
      findVenvGo pl fs pc fuel root =
        (venvCandidatesGo pl fs pc fuel root).findSome?
          (fun d => _venv_path pl fs d "venv") := by
  intro fuel
  induction fuel with
  | zero =>
    intro root h
    exact absurd h (Nat.not_lt_zero _)
  | succ fuel ih =>
    intro root h
    rw [venvCandidatesGo_succ]
    simp only [findVenvGo]
    cases hv : _venv_path pl fs root "venv" with
    | some v =>
      cases hpr : is_project_root pl fs pc root with
      | true => simp [hpr, List.findSome?_cons, hv]
      | false =>
        by_cases hg : (pc.dirname root).length ≥ root.length ∨ pc.dirname root = pc.userHome
        · simp [hpr, hg, List.findSome?_cons, hv]
        · simp [hpr, hg, List.findSome?_cons, hv]
    | none =>
      cases hpr : is_project_root pl fs pc root with
      | true => simp [hpr, List.findSome?_cons, hv]
      | false =>
        by_cases hg : (pc.dirname root).length ≥ root.length ∨ pc.dirname root = pc.userHome
        · simp [hpr, hg, List.findSome?_cons, hv]
        · have hd : (pc.dirname root).length < root.length := by
            rcases not_or.mp hg with ⟨hlen, _⟩
            omega
          simp only [hpr, hg, if_false, Bool.false_eq_true, List.findSome?_cons, hv]
          exact ih (pc.dirname root) (by omega)

/-- C4 is false of the code on windows: _venv_path always uses the bin
subdirectory, never Scripts, so a start directory whose venv is laid out
with Scripts/python.exe (the layout the claim names for windows-like
systems) and which is no project root still resolves to none. -/
theorem c4_counterexample :
    fsScripts.lexists "C:\\proj" = true
    ∧ fsScripts.pexists "C:\\proj\\venv\\Scripts\\python.exe" = true
    ∧ fsScripts.isfile "C:\\proj\\venv\\Scripts\\python.exe" = true
    ∧ is_project_root OSFamily.windows fsScripts pcWin "C:\\proj" = false
    ∧ _find_venv OSFamily.windows fsScripts pcWin "C:\\proj" = none :=
  ⟨by decide, by decide, by decide, by decide, by decide⟩

/-- C4 amended: for an existing start directory, _find_venv returns the
first hit of _venv_path (which checks venv slash bin slash python, with
python.exe on windows, under the venv-named child) along the ancestor
chain cut at the first project root; in particular the nearest ancestor
with such a venv wins and nothing above the first project root is
inspected. -/
theorem c4_nearest_ancestor_wins (pl : OSFamily) (fs : FileSystem) (pc : PathCtx)
    (root : String) (h : fs.lexists root = true) :
    _find_venv pl fs pc root =
      (venvCandidates pl fs pc root).findSome? (fun d => _venv_path pl fs d "venv") := by
  unfold _find_venv venvCandidates
  rw [if_pos h]
  exact findVenvGo_eq_candidates pl fs pc (root.length + 1) root (Nat.lt_succ_self _)

/-- Witness for the amended C4 on the ancestor-venv fixture. -/
theorem c4_nearest_ancestor_wins_witness :
    _find_venv OSFamily.linux fsAncestorVenv pcSlashH "/h/a/b" =
      (venvCandidates OSFamily.linux fsAncestorVenv pcSlashH "/h/a/b").findSome?
        (fun d => _venv_path OSFamily.linux fsAncestorVenv d "venv") :=
  c4_nearest_ancestor_wins OSFamily.linux fsAncestorVenv pcSlashH "/h/a/b" (by decide)

/-- C8: a nonexistent start directory yields none immediately; the walk
stops with none as soon as the dirname is not strictly shorter or equals
the user home; the visited chain is bounded by the path length plus one;
and any fuel beyond that bound changes nothing, so the walk terminates
within length-plus-one steps. -/
theorem c8_termination (pl : OSFamily) (fs : FileSystem) (pc : PathCtx)
    (root : String) :
    (fs.lexists root = false → _find_venv pl fs pc root = none)
    ∧ (∀ fuel, _venv_path pl fs root "venv" = none →
        is_project_root pl fs pc root = false →
        ((pc.dirname root).length ≥ root.length ∨ pc.dirname root = pc.userHome) →
        findVenvGo pl fs pc (fuel + 1) root = none)
    ∧ (ancestorChain pc root).length ≤ root.length + 1
    ∧ (∀ fuel, root.length < fuel →
        findVenvGo pl fs pc fuel root = findVenvGo pl fs pc (root.length + 1) root) := by
  refine ⟨?_, ?_, ?_, ?_⟩
  · intro h
    simp [_find_venv, h]
  · intro fuel hv hpr hg
    simp [findVenvGo, hv, hpr, hg]
  · exact ancestorChainGo_length pc (root.length + 1) root
  · intro fuel h
    exact findVenvGo_fuel_irrel pl fs pc fuel (root.length + 1) root h (Nat.lt_succ_self _)

/-- Witness for C8 on small concrete inputs. -/
theorem c8_termination_witness :
    _find_venv OSFamily.linux fsEmpty pcTriv "/r" = none
    ∧ findVenvGo OSFamily.linux fsEmpty pcTriv 1 "/r" = none
    ∧ findVenvGo OSFamily.linux fsEmpty pcTriv 9 "/r" =
        findVenvGo OSFamily.linux fsEmpty pcTriv 3 "/r" :=
  ⟨(c8_termination OSFamily.linux fsEmpty pcTriv "/r").1 rfl,
    (c8_termination OSFamily.linux fsEmpty pcTriv "/r").2.1 0 (by decide) (by decide)
      (Or.inl (by decide)),
    (c8_termination OSFamily.linux fsEmpty pcTriv "/r").2.2.2 9 (by decide)⟩

end LspPyright
